import Mathlib

/-!
Shallow embedding of the core of the `github_pr_automation` repository
(`src/rate_limiter.py`, `src/cache_manager.py`, `src/github_stats.py`)
together with theorems settling the specification claims.

Modelling conventions:
* Python machine time (datetime / epoch timestamps) is modelled as `Int`
  seconds; time deltas compare in seconds.
* Exceptions are modelled as explicit error values (`Except`); a function
  that "does not raise" is total and returns its failure indication.
* JSON payloads are modelled by the inductive `JsonVal` (numbers as `Int`);
  a file's on-disk bytes are modelled by what they deserialize to:
  `FileData.valid v` when `json.load` would return `v`, `FileData.corrupt`
  when deserialization fails.
* Network responses are passed in explicitly as data (the response a
  `requests.get` call would produce), so the pure Lean functions mirror the
  control flow of the Python code on those responses.
* Observable side effects that the claims mention (number of invocations of
  a wrapped operation, `time.sleep` durations, whether the quota endpoint
  was re-queried) are returned as extra result fields; log/print output is
  not modelled.
-/

/- ------------------------------------------------------------------ -/
/- Retry policy: `with_retry` from src/rate_limiter.py (lines 243-294) -/
/- ------------------------------------------------------------------ -/

/-- Python exceptions distinguished by `with_retry`:
`requests.exceptions.HTTPError` (carrying the response status code and an
identity tag so distinct error objects can be told apart) versus any other
`Exception` (carrying an identity tag). -/
inductive PyErr : Type where
  | httpError (status : Nat) (tag : Nat)
  | otherError (tag : Nat)
deriving DecidableEq

/-- Result of running a `with_retry`-wrapped operation: the returned value
or raised exception (`.ok none` models Python falling off the loop with
`last_exception = None`, returning `None`), the number of times the wrapped
operation was invoked, and the list of `time.sleep` durations performed. -/
structure RetryResult (α : Type) : Type where
  result : Except PyErr (Option α)
  calls : Nat
  sleeps : List Nat

/-- One pass of the `for attempt in range(max_retries)` loop of
`with_retry`'s `wrapper` (src/rate_limiter.py lines 264-291), with
`remaining` iterations left, the current `attempt` index and the current
`last_exception`.  `op n` is the outcome of the n-th invocation of the
wrapped function.  An `HTTPError` with status 403 sleeps
`delay * 2 ** attempt` (when `attempt < max_retries - 1`) and continues;
any other `HTTPError` is re-raised at once; any other exception sleeps
`delay` (same guard) and continues; after the loop the last exception, if
any, is re-raised. -/
def retryLoop {α : Type} (delay : Nat) (op : Nat → Except PyErr α) :
    Nat → Nat → Option PyErr → RetryResult α
  | 0, _, last =>
    { result := match last with
      | some e => .error e
      | none => .ok none
      calls := 0, sleeps := [] }
  | remaining + 1, attempt, _ =>
    match op attempt with
    | .ok v => { result := .ok (some v), calls := 1, sleeps := [] }
    | .error (.httpError status tag) =>
      if status = 403 then
        let pre := if remaining = 0 then [] else [delay * 2 ^ attempt]
        let rest := retryLoop delay op remaining (attempt + 1)
          (some (.httpError status tag))
        { result := rest.result, calls := rest.calls + 1,
          sleeps := pre ++ rest.sleeps }
      else
        { result := .error (.httpError status tag), calls := 1, sleeps := [] }
    | .error (.otherError tag) =>
      let pre := if remaining = 0 then [] else [delay]
      let rest := retryLoop delay op remaining (attempt + 1)
        (some (.otherError tag))
      { result := rest.result, calls := rest.calls + 1,
        sleeps := pre ++ rest.sleeps }

/-- The behaviour of a function wrapped by `with_retry(max_retries, delay)`
(src/rate_limiter.py lines 243-294) on an operation whose successive
invocations produce `op 0, op 1, ...`. -/
def with_retry {α : Type} (max_retries delay : Nat)
    (op : Nat → Except PyErr α) : RetryResult α :=
  retryLoop delay op max_retries 0 none

/- ------------------------------------------------------------------- -/
/- Quota monitor: `RateLimitHandler` from src/rate_limiter.py (26-209)  -/
/- ------------------------------------------------------------------- -/

/-- The `resources.core` object of a successful `/rate_limit` response. -/
structure CoreRate : Type where
  remaining : Nat
  limit : Nat
  reset : Int
  used : Nat
deriving DecidableEq

/-- The `rate_info` dictionary built by `check_rate_limit`
(src/rate_limiter.py lines 81-87): `reset_datetime` is
`datetime.fromtimestamp(reset)`, modelled as the same epoch second. -/
structure RateInfo : Type where
  remaining : Nat
  limit : Nat
  reset : Int
  reset_datetime : Int
  used : Nat
deriving DecidableEq

/-- The `rate_info` built from a successful quota response. -/
def mkRateInfo (c : CoreRate) : RateInfo :=
  { remaining := c.remaining, limit := c.limit, reset := c.reset,
    reset_datetime := c.reset, used := c.used }

/-- Mutable state of a `RateLimitHandler`: the configured threshold
`min_remaining` and the `_last_check` / `_last_rate_info` caches. -/
structure HandlerState : Type where
  min_remaining : Nat
  last_check : Option Int
  last_rate_info : Option RateInfo
deriving DecidableEq

/-- Model of `RateLimitHandler.check_rate_limit` (src/rate_limiter.py
lines 53-104) at time `now`; `resp` is the outcome of the HTTP call to the
quota endpoint (`.error` covers any exception: connection failure or
`raise_for_status`).  On success it stores `_last_check := now` and
`_last_rate_info`; on failure it returns the optimistic default
`remaining = limit = 5000`, `reset = 0`, `reset_datetime = now`, `used = 0`
and leaves the handler state unchanged. -/
def check_rate_limit (st : HandlerState) (now : Int)
    (resp : Except Unit CoreRate) : RateInfo × HandlerState :=
  match resp with
  | .ok c =>
    (mkRateInfo c,
      { st with last_check := some now, last_rate_info := some (mkRateInfo c) })
  | .error _ =>
    ({ remaining := 5000, limit := 5000, reset := 0, reset_datetime := now,
       used := 0 }, st)

/-- Result of `wait_if_needed`: the returned boolean, the duration passed
to `_wait_with_progress` (if any), whether `check_rate_limit` was invoked,
and the handler state afterwards. -/
structure WaitResult : Type where
  didWait : Bool
  slept : Option Int
  checked : Bool
  state : HandlerState
deriving DecidableEq

/-- Model of `RateLimitHandler.wait_if_needed` (src/rate_limiter.py lines
117-164) at time `now`: if not forced and `_last_check` is set with
`now - _last_check < 5`, return `False` without re-checking; otherwise call
`check_rate_limit`; if `remaining < min_remaining` and
`reset_datetime - now > 0`, sleep `(reset_datetime - now) + 5` and return
`True`; otherwise return `False`. -/
def wait_if_needed (st : HandlerState) (force_check : Bool) (now : Int)
    (resp : Except Unit CoreRate) : WaitResult :=
  let debounced := !force_check &&
    (match st.last_check with
     | some t => decide (now - t < 5)
     | none => false)
  if debounced then
    { didWait := false, slept := none, checked := false, state := st }
  else
    let p := check_rate_limit st now resp
    if p.1.remaining < st.min_remaining then
      let wait_seconds := p.1.reset_datetime - now
      if 0 < wait_seconds then
        { didWait := true, slept := some (wait_seconds + 5), checked := true,
          state := p.2 }
      else
        { didWait := false, slept := none, checked := true, state := p.2 }
    else
      { didWait := false, slept := none, checked := true, state := p.2 }

/- ------------------------------------------------------------------- -/
/- Cache store: `CacheManager` from src/cache_manager.py (27-193)       -/
/- ------------------------------------------------------------------- -/

/-- JSON values (numbers modelled as integers). -/
inductive JsonVal : Type where
  | null : JsonVal
  | bool (b : Bool) : JsonVal
  | num (n : Int) : JsonVal
  | str (s : String) : JsonVal
  | arr (elems : List JsonVal) : JsonVal
  | obj (fields : List (String × JsonVal)) : JsonVal

/-- What the bytes of a cache file deserialize to: a JSON value, or a
deserialization failure (corrupted entry). -/
inductive FileData : Type where
  | valid (v : JsonVal) : FileData
  | corrupt : FileData

/-- One cache file: its filesystem modification time (epoch seconds) and
its contents.  (Byte sizes, and hence `total_size_bytes`, are not
modelled.) -/
structure CFile : Type where
  mtime : Int
  content : FileData

/-- Lookup of a file by name in the cache directory listing. -/
def fsLookup : List (String × CFile) → String → Option CFile
  | [], _ => none
  | (k, f) :: rest, n => if k = n then some f else fsLookup rest n

/-- Writing a file: overwrites the entry with the same name, or appends. -/
def fsInsert : List (String × CFile) → String → CFile → List (String × CFile)
  | [], n, f => [(n, f)]
  | (k, g) :: rest, n, f =>
    if k = n then (n, f) :: rest else (k, g) :: fsInsert rest n f

/-- `unlink`: removes the file with the given name. -/
def fsErase (files : List (String × CFile)) (n : String) :
    List (String × CFile) :=
  files.filter (fun p => !(p.1 = n : Bool))

/-- The state of a `CacheManager`: the `.json` files in its cache
directory, keyed by file stem. -/
structure CacheManager : Type where
  files : List (String × CFile)

/-- A payload handed to `CacheManager.set`: either JSON-serializable data
or a value on which `json.dump` raises `TypeError`. -/
inductive Payload : Type where
  | json (v : JsonVal) : Payload
  | unserializable (tag : Nat) : Payload

/-- Serialization as performed by `json.dump`: succeeds exactly on
JSON-serializable payloads. -/
def serializeP : Payload → Option JsonVal
  | .json v => some v
  | .unserializable _ => none

/-- Model of `CacheManager.get` (src/cache_manager.py lines 68-110) at
time `now`, with `hash` standing for the hex digest `_get_cache_key`
(any deterministic key-derivation function).  Missing file: `None`.
File age above `max_age_hours` hours: unlink, `None`.  Deserialization
failure: unlink, `None`.  Otherwise the stored payload.  Returns the value
and the cache state afterwards. -/
def CacheManager.get (hash : String → String) (cm : CacheManager)
    (key : String) (max_age_hours now : Int) :
    Option JsonVal × CacheManager :=
  let name := hash key
  match fsLookup cm.files name with
  | none => (none, cm)
  | some f =>
    if max_age_hours * 3600 < now - f.mtime then
      (none, ⟨fsErase cm.files name⟩)
    else
      match f.content with
      | .valid v => (some v, cm)
      | .corrupt => (none, ⟨fsErase cm.files name⟩)

/-- Model of `CacheManager.set` (src/cache_manager.py lines 112-135) at
time `now`: on serializable data, write the file and return `True`; on a
`TypeError` from `json.dump`, return `False` — `open(..., 'w')` has
already truncated the file, so the entry is left corrupted.  Never
raises: totality of this function is the no-raise guarantee. -/
def CacheManager.set (hash : String → String) (cm : CacheManager)
    (key : String) (data : Payload) (now : Int) : Bool × CacheManager :=
  match serializeP data with
  | some v =>
    (true, ⟨fsInsert cm.files (hash key) ⟨now, .valid v⟩⟩)
  | none =>
    (false, ⟨fsInsert cm.files (hash key) ⟨now, .corrupt⟩⟩)

/-- Model of `CacheManager.get_cache_info` (src/cache_manager.py lines
178-193), restricted to the `total_files` entry count (byte sizes are not
modelled). -/
def CacheManager.get_cache_info (cm : CacheManager) : Nat :=
  cm.files.length

/- ------------------------------------------------------------------- -/
/- Fetch orchestrator pieces from src/github_stats.py                   -/
/- ------------------------------------------------------------------- -/

/-- One element of a `/repos/{repo}/issues` response: whether the item has
a `pull_request` key, and its `state` string. -/
structure IssueItem : Type where
  has_pull_request : Bool
  state : String
deriving DecidableEq

/-- The `stats` dictionary of `count_issues`. -/
structure IssueStats : Type where
  total : Nat
  open_count : Nat
  closed : Nat
deriving DecidableEq

/-- The body of the `for issue in issues` loop of `count_issues`
(src/github_stats.py lines 360-366): bump `total` and exactly one of
`open` / `closed` according to `state == 'open'`. -/
def issue_tally (s : IssueStats) (i : IssueItem) : IssueStats :=
  { total := s.total + 1,
    open_count := if i.state = "open" then s.open_count + 1
                  else s.open_count,
    closed := if i.state = "open" then s.closed else s.closed + 1 }

/-- Processing of one repository inside `count_issues`
(src/github_stats.py lines 338-370): a failed request (non-200 status or
exception) is skipped; otherwise items with a `pull_request` key are
filtered out and each remaining item is tallied. -/
def count_issues_step (acc : IssueStats) (resp : Option (List IssueItem)) :
    IssueStats :=
  match resp with
  | none => acc
  | some items =>
    (items.filter (fun i => !i.has_pull_request)).foldl issue_tally acc

/-- Model of `GitHubStatsPrivate.count_issues` (src/github_stats.py lines
320-373): `rs` lists, per repository, the issue-listing response (`none`
when the request failed and the repository is skipped). -/
def count_issues (rs : List (Option (List IssueItem))) : IssueStats :=
  rs.foldl count_issues_step { total := 0, open_count := 0, closed := 0 }

/-- Items of skipped repositories count zero; otherwise the number of
items that survive the pull-request filter. -/
def issueItemCount : Option (List IssueItem) → Nat
  | none => 0
  | some items => (items.filter (fun i => !i.has_pull_request)).length

/-- Accumulation into the `language_bytes` dict: an existing key is
updated in place, a new key is appended (Python dict insertion order). -/
def dictAdd : List (String × Nat) → String → Nat → List (String × Nat)
  | [], l, b => [(l, b)]
  | (k, v) :: rest, l, b =>
    if k = l then (k, v + b) :: rest else (k, v) :: dictAdd rest l b

/-- The `language_bytes` accumulation loop of `get_language_stats`
(src/github_stats.py lines 417-435): per repository, a `none` response
(non-200 or exception) is skipped, otherwise each `(language, bytes)`
pair is added into the running dict. -/
def accumulate_languages (rs : List (Option (List (String × Nat)))) :
    List (String × Nat) :=
  rs.foldl
    (fun acc r =>
      match r with
      | none => acc
      | some items => items.foldl (fun a p => dictAdd a p.1 p.2) acc)
    []

/-- Python 3 `round` to an integer: round half to even. -/
def roundHalfEven (q : ℚ) : ℤ :=
  if q - Int.floor q < 1 / 2 then Int.floor q
  else if 1 / 2 < q - Int.floor q then Int.floor q + 1
  else if 2 ∣ Int.floor q then Int.floor q else Int.floor q + 1

/-- Python's `round(x, 2)`. -/
def round2 (q : ℚ) : ℚ :=
  (roundHalfEven (q * 100) : ℚ) / 100

/-- The grand total `sum(language_bytes.values())`. -/
def langTotal (acc : List (String × Nat)) : Nat :=
  (acc.map Prod.snd).sum

/-- Descending comparison on percentages, the `key=lambda x: x[1],
reverse=True` order of `get_language_stats`. -/
def descBySnd (a b : String × ℚ) : Prop := b.2 ≤ a.2

instance : DecidableRel descBySnd :=
  fun a b => inferInstanceAs (Decidable (b.2 ≤ a.2))

instance : IsTotal (String × ℚ) descBySnd :=
  ⟨fun a b => (le_total b.2 a.2).imp id id⟩

instance : IsTrans (String × ℚ) descBySnd :=
  ⟨fun _ _ _ h1 h2 => le_trans h2 h1⟩

/-- Model of `GitHubStatsPrivate.get_language_stats` (src/github_stats.py
lines 399-455): accumulate byte counts, return `{}` on a zero grand
total, otherwise map each count to `round(bytes / total * 100, 2)` and
sort descending by percentage (`sorted` is stable, insertion sort
reproduces it).  The `include_languages` switch is taken as enabled. -/
def get_language_stats (rs : List (Option (List (String × Nat)))) :
    List (String × ℚ) :=
  let acc := accumulate_languages rs
  let total := langTotal acc
  if total = 0 then []
  else
    List.insertionSort descBySnd
      (acc.map (fun p => (p.1, round2 ((p.2 : ℚ) / (total : ℚ) * 100))))

/-- The pagination loop of `get_all_repos` (src/github_stats.py lines
161-184): `pages` lists the successive `/user/repos` responses; pages past
the end of the list are empty, and the loop stops at the first empty
page. -/
def paginate {α : Type} : List (List α) → List α
  | [] => []
  | p :: rest => if p.isEmpty then [] else p ++ paginate rest

/-- Result of `get_all_repos`: the returned list, whether the remote
paginated fetch ran, and whether the result was written back to cache. -/
structure ReposResult (α : Type) : Type where
  repos : List α
  fetched_remote : Bool
  wrote_cache : Bool
deriving DecidableEq

/-- The remote-fetch path of `get_all_repos`. -/
def fetch_path {α : Type} (cache_enabled : Bool) (pages : List (List α)) :
    ReposResult α :=
  { repos := paginate pages, fetched_remote := true,
    wrote_cache := cache_enabled }

/-- Model of the body of `GitHubStatsPrivate.get_all_repos`
(src/github_stats.py lines 150-191): when caching is enabled, `cached` is
what `cache.get` returned; the cached value is used only when it is truthy
(not `None` and non-empty), otherwise the paginated fetch runs and, with
caching enabled, writes back. -/
def get_all_repos {α : Type} (cache_enabled : Bool)
    (cached : Option (List α)) (pages : List (List α)) : ReposResult α :=
  if cache_enabled then
    match cached with
    | some c =>
      if c.isEmpty then fetch_path cache_enabled pages
      else { repos := c, fetched_remote := false, wrote_cache := false }
    | none => fetch_path cache_enabled pages
  else fetch_path cache_enabled pages

/- ------------------------------------------------------------------- -/
/- Helper lemmas on the retry loop                                      -/
/- ------------------------------------------------------------------- -/

/-- Exhausted loop with a recorded exception re-raises it. -/
theorem retryLoop_zero {α : Type} (delay : Nat) (op : Nat → Except PyErr α)
    (a : Nat) (e : PyErr) :
    retryLoop delay op 0 a (some e) = ⟨.error e, 0, []⟩ := rfl

/-- A successful invocation returns at once. -/
theorem retryLoop_ok {α : Type} {delay : Nat} {op : Nat → Except PyErr α}
    {a : Nat} {v : α} (r : Nat) (last : Option PyErr) (h : op a = .ok v) :
    retryLoop delay op (r + 1) a last = ⟨.ok (some v), 1, []⟩ := by
  simp [retryLoop, h]

/-- A quota (403) failure sleeps `delay * 2 ^ attempt` (except on the last
attempt) and continues the loop. -/
theorem retryLoop_quota {α : Type} {delay : Nat} {op : Nat → Except PyErr α}
    {a t : Nat} (r : Nat) (last : Option PyErr)
    (h : op a = .error (.httpError 403 t)) :
    retryLoop delay op (r + 1) a last =
      ⟨(retryLoop delay op r (a + 1) (some (.httpError 403 t))).result,
       (retryLoop delay op r (a + 1) (some (.httpError 403 t))).calls + 1,
       (if r = 0 then [] else [delay * 2 ^ a]) ++
         (retryLoop delay op r (a + 1) (some (.httpError 403 t))).sleeps⟩ := by
  simp [retryLoop, h]

/-- A non-quota HTTP failure is re-raised immediately. -/
theorem retryLoop_http_nonquota {α : Type} {delay : Nat}
    {op : Nat → Except PyErr α} {a s t : Nat} (r : Nat) (last : Option PyErr)
    (h : op a = .error (.httpError s t)) (hs : ¬ s = 403) :
    retryLoop delay op (r + 1) a last =
      ⟨.error (.httpError s t), 1, []⟩ := by
  simp [retryLoop, h, hs]

/-- Any other exception sleeps the constant `delay` (except on the last
attempt) and continues the loop. -/
theorem retryLoop_other {α : Type} {delay : Nat} {op : Nat → Except PyErr α}
    {a t : Nat} (r : Nat) (last : Option PyErr)
    (h : op a = .error (.otherError t)) :
    retryLoop delay op (r + 1) a last =
      ⟨(retryLoop delay op r (a + 1) (some (.otherError t))).result,
       (retryLoop delay op r (a + 1) (some (.otherError t))).calls + 1,
       (if r = 0 then [] else [delay]) ++
         (retryLoop delay op r (a + 1) (some (.otherError t))).sleeps⟩ := by
  simp [retryLoop, h]

/-- On an operation every invocation of which fails with a non-HTTP
exception, the loop uses its whole budget, sleeping the constant delay
between attempts, and re-raises the last error. -/
theorem retryLoop_allOther {α : Type} (delay : Nat)
    (op : Nat → Except PyErr α) (f : Nat → Nat)
    (hop : ∀ i, op i = .error (.otherError (f i))) :
    ∀ (r a : Nat) (last : Option PyErr),
      retryLoop delay op (r + 1) a last =
        ⟨.error (.otherError (f (a + r))), r + 1, List.replicate r delay⟩ := by
  intro r
  induction r with
  | zero =>
    intro a last
    rw [retryLoop_other 0 last (hop a), retryLoop_zero]
    simp
  | succ m ih =>
    intro a last
    rw [retryLoop_other (m + 1) last (hop a), ih (a + 1)]
    have hidx : a + 1 + m = a + (m + 1) := by omega
    simp [hidx, List.replicate_succ]

/- ------------------------------------------------------------------- -/
/- Claims C1 and C2: the retry policy                                   -/
/- ------------------------------------------------------------------- -/

/-- Operation failing every invocation with a non-quota HTTP error. -/
def opAlways404 : Nat → Except PyErr Nat :=
  fun _ => .error (.httpError 404 0)

/-- C1, counterexample: an operation that fails on *every* invocation with
an HTTP 404 error is invoked exactly once by the `maxRetries = 3` wrapper,
which re-raises the error immediately — not after 3 invocations as the
claim states for arbitrary always-failing operations. -/
theorem C1_always404_one_invocation :
    (with_retry 3 2 opAlways404).calls = 1 ∧
    ¬ (with_retry 3 2 opAlways404).calls = 3 ∧
    (with_retry 3 2 opAlways404).result = .error (.httpError 404 0) :=
  ⟨rfl, by decide, rfl⟩

/-- C1 (amended): for the retry policy with `maxRetries = 3`, an operation
failing with the quota-exceeded class (HTTP 403) on its first two
invocations and succeeding on the third returns the success value after
exactly 3 invocations with backoff sleeps `baseDelay * 2 ^ 0` and
`baseDelay * 2 ^ 1`; an operation failing with the quota-exceeded class on
every invocation makes the wrapper re-raise the last underlying error
after exactly 3 invocations with the same backoff sleeps. -/
theorem C1_retry_quota_amended {α : Type} (delay : Nat)
    (op : Nat → Except PyErr α) (v : α) (t0 t1 : Nat) (f : Nat → Nat) :
    (op 0 = .error (.httpError 403 t0) → op 1 = .error (.httpError 403 t1) →
      op 2 = .ok v →
      with_retry 3 delay op =
        ⟨.ok (some v), 3, [delay * 2 ^ 0, delay * 2 ^ 1]⟩) ∧
    ((∀ i, op i = .error (.httpError 403 (f i))) →
      with_retry 3 delay op =
        ⟨.error (.httpError 403 (f 2)), 3, [delay * 2 ^ 0, delay * 2 ^ 1]⟩) := by
  constructor
  · intro h0 h1 h2
    show retryLoop delay op (2 + 1) 0 none = _
    rw [retryLoop_quota 2 none h0,
      retryLoop_quota 1 (some (.httpError 403 t0)) h1,
      retryLoop_ok 0 (some (.httpError 403 t1)) h2]
    simp
  · intro hall
    show retryLoop delay op (2 + 1) 0 none = _
    rw [retryLoop_quota 2 none (hall 0),
      retryLoop_quota 1 (some (.httpError 403 (f 0))) (hall 1),
      retryLoop_quota 0 (some (.httpError 403 (f 1))) (hall 2),
      retryLoop_zero]
    simp

/-- Operation failing with quota-exceeded (403) twice, then succeeding. -/
def opQuotaTwiceThenOk : Nat → Except PyErr Nat :=
  fun i => if i < 2 then .error (.httpError 403 i) else .ok 7

/-- Operation failing with quota-exceeded (403) on every invocation. -/
def opAlways403 : Nat → Except PyErr Nat :=
  fun i => .error (.httpError 403 i)

/-- Witness for C1 at `baseDelay = 2`. -/
theorem C1_retry_quota_amended_witness :
    with_retry 3 2 opQuotaTwiceThenOk = ⟨.ok (some 7), 3, [2, 4]⟩ ∧
    with_retry 3 2 opAlways403 = ⟨.error (.httpError 403 2), 3, [2, 4]⟩ :=
  ⟨(C1_retry_quota_amended 2 opQuotaTwiceThenOk 7 0 1 id).1 rfl rfl rfl,
   (C1_retry_quota_amended 2 opAlways403 7 0 1 id).2 (fun _ => rfl)⟩

/-- Operation failing every invocation with a non-quota HTTP 500 error. -/
def opAlways500 : Nat → Except PyErr Nat :=
  fun _ => .error (.httpError 500 0)

/-- C2, counterexample: a wrapped operation whose first invocation fails
with a non-quota HTTP error (status 500) is *not* retried with constant
delay — the wrapper performs no sleep and re-raises the error after a
single invocation. -/
theorem C2_http500_raises_immediately :
    (with_retry 3 2 opAlways500).calls = 1 ∧
    (with_retry 3 2 opAlways500).sleeps = [] ∧
    (with_retry 3 2 opAlways500).result = .error (.httpError 500 0) :=
  ⟨rfl, rfl, rfl⟩

/-- C2 (amended): failures that are not HTTP errors are retried with the
constant delay `baseDelay` for the same attempt budget (up to `maxRetries`
total invocations, re-raising the last error on exhaustion), but an HTTP
error that is not of the quota-exceeded class (status ≠ 403) is re-raised
immediately after its first occurrence. -/
theorem C2_retry_nonquota_amended {α : Type} (n delay : Nat)
    (op : Nat → Except PyErr α) (f : Nat → Nat) (s t : Nat) :
    (1 ≤ n → (∀ i, op i = .error (.otherError (f i))) →
      with_retry n delay op =
        ⟨.error (.otherError (f (n - 1))), n, List.replicate (n - 1) delay⟩) ∧
    (1 ≤ n → ¬ s = 403 → op 0 = .error (.httpError s t) →
      with_retry n delay op = ⟨.error (.httpError s t), 1, []⟩) := by
  constructor
  · intro hn hop
    obtain ⟨m, rfl⟩ : ∃ m, n = m + 1 := ⟨n - 1, by omega⟩
    show retryLoop delay op (m + 1) 0 none = _
    rw [retryLoop_allOther delay op f hop m 0]
    simp
  · intro hn hs h0
    obtain ⟨m, rfl⟩ : ∃ m, n = m + 1 := ⟨n - 1, by omega⟩
    show retryLoop delay op (m + 1) 0 none = _
    rw [retryLoop_http_nonquota m none h0 hs]

/-- Operation failing every invocation with a generic exception. -/
def opAlwaysOther : Nat → Except PyErr Nat :=
  fun i => .error (.otherError i)

/-- Witness for C2 at `maxRetries = 3`, `baseDelay = 2`. -/
theorem C2_retry_nonquota_amended_witness :
    with_retry 3 2 opAlwaysOther = ⟨.error (.otherError 2), 3, [2, 2]⟩ ∧
    with_retry 3 2 opAlways500 = ⟨.error (.httpError 500 0), 1, []⟩ :=
  ⟨(C2_retry_nonquota_amended 3 2 opAlwaysOther id 500 0).1 (by decide)
      (fun _ => rfl),
   (C2_retry_nonquota_amended 3 2 opAlways500 id 500 0).2 (by decide)
      (by decide) rfl⟩

/- ------------------------------------------------------------------- -/
/- Claims C3 and C4: the quota monitor                                  -/
/- ------------------------------------------------------------------- -/

/-- C3: with `min_remaining = 100` and a fresh check (no previous check)
reporting `remaining = 50` and a reset 30 seconds away, `wait_if_needed`
sleeps 30 + 5 seconds and returns `True`; a status with
`remaining ≥ min_remaining` returns `False` without sleeping; and any
sleep that does occur has a strictly positive duration (a clock already
past the reset time causes no wait). -/
theorem C3_wait_if_needed_behavior (st : HandlerState) (now : Int)
    (c : CoreRate) (force : Bool) (resp : Except Unit CoreRate) (d : Int) :
    (st.min_remaining = 100 → st.last_check = none → c.remaining = 50 →
      c.reset = now + 30 →
      (wait_if_needed st false now (.ok c)).didWait = true ∧
      (wait_if_needed st false now (.ok c)).slept = some 35) ∧
    (st.min_remaining ≤ c.remaining →
      (wait_if_needed st force now (.ok c)).didWait = false ∧
      (wait_if_needed st force now (.ok c)).slept = none) ∧
    ((wait_if_needed st force now resp).slept = some d → 0 < d) := by
  refine ⟨?_, ?_, ?_⟩
  · intro h1 h2 h3 h4
    have h30 : now + 30 - now = 30 := by omega
    simp [wait_if_needed, check_rate_limit, mkRateInfo, h1, h2, h3, h4, h30]
  · intro hle
    have hnl : ¬ (mkRateInfo c).remaining < st.min_remaining :=
      Nat.not_lt.mpr hle
    simp only [wait_if_needed, check_rate_limit]
    split
    · exact ⟨rfl, rfl⟩
    · simp [hnl]
  · intro hd
    simp only [wait_if_needed] at hd
    split at hd
    · simp at hd
    · split at hd
      · split at hd
        · rename_i hw
          simp only [Option.some.injEq] at hd
          omega
        · simp at hd
      · simp at hd

/-- Handler fresh out of `__init__` with `min_remaining = 100`. -/
def stFresh : HandlerState :=
  { min_remaining := 100, last_check := none, last_rate_info := none }

/-- Quota status with 50 calls remaining and reset 30 s from time 0. -/
def coreLow : CoreRate :=
  { remaining := 50, limit := 5000, reset := 30, used := 4950 }

/-- Quota status with 200 calls remaining. -/
def coreHigh : CoreRate :=
  { remaining := 200, limit := 5000, reset := 30, used := 4800 }

/-- Witness for C3 at time 0. -/
theorem C3_wait_if_needed_behavior_witness :
    ((wait_if_needed stFresh false 0 (.ok coreLow)).didWait = true ∧
     (wait_if_needed stFresh false 0 (.ok coreLow)).slept = some 35) ∧
    ((wait_if_needed stFresh false 0 (.ok coreHigh)).didWait = false ∧
     (wait_if_needed stFresh false 0 (.ok coreHigh)).slept = none) ∧
    (0 : Int) < 35 :=
  ⟨(C3_wait_if_needed_behavior stFresh 0 coreLow false (.ok coreLow) 35).1
      rfl rfl rfl (by decide),
   (C3_wait_if_needed_behavior stFresh 0 coreHigh false (.ok coreHigh) 35).2.1
      (by decide),
   (C3_wait_if_needed_behavior stFresh 0 coreLow false (.ok coreLow) 35).2.2
      ((C3_wait_if_needed_behavior stFresh 0 coreLow false (.ok coreLow) 35).1
        rfl rfl rfl (by decide)).2⟩

/-- Handler state fresh out of `__init__` (nothing checked yet). -/
def stInit : HandlerState :=
  { min_remaining := 100, last_check := none, last_rate_info := none }

/-- A healthy quota response. -/
def coreOk : CoreRate :=
  { remaining := 4000, limit := 5000, reset := 0, used := 1000 }

/-- C4, counterexample: a `check_rate_limit` call that hits a transport
failure at time 0 returns the optimistic fallback but does *not* cache it:
`_last_check` and `_last_rate_info` stay unset, and a `wait_if_needed` one
second later — well inside the 5-second debounce window the claim invokes —
performs a fresh check instead of skipping it. -/
theorem C4_fallback_not_cached :
    (check_rate_limit stInit 0 (.error ())).1.remaining = 5000 ∧
    (check_rate_limit stInit 0 (.error ())).2.last_check = none ∧
    (check_rate_limit stInit 0 (.error ())).2.last_rate_info = none ∧
    (wait_if_needed (check_rate_limit stInit 0 (.error ())).2 false 1
      (.ok coreOk)).checked = true :=
  ⟨rfl, rfl, rfl, rfl⟩

/-- C4 (amended): on transport failure `check_rate_limit` returns the
optimistic fallback status (`remaining = limit = 5000`,
`reset_datetime = now`) without propagating the error, leaving the cached
status and check time unchanged; only a *successful* check caches the
status and the check time, after which a `wait_if_needed` within the
5-second debounce window skips re-checking. -/
theorem C4_check_rate_limit_amended (st : HandlerState) (now t : Int)
    (c : CoreRate) (resp : Except Unit CoreRate) :
    (check_rate_limit st now (.error ()) =
      ({ remaining := 5000, limit := 5000, reset := 0, reset_datetime := now,
         used := 0 }, st)) ∧
    ((check_rate_limit st now (.ok c)).2.last_check = some now ∧
     (check_rate_limit st now (.ok c)).2.last_rate_info =
       some (mkRateInfo c)) ∧
    (st.last_check = some t → now - t < 5 →
      (wait_if_needed st false now resp).checked = false ∧
      (wait_if_needed st false now resp).state = st) := by
  refine ⟨rfl, ⟨rfl, rfl⟩, ?_⟩
  intro hlc hlt
  simp [wait_if_needed, hlc, hlt]

/-- Handler state whose last successful check happened at time 0. -/
def stChecked : HandlerState :=
  { min_remaining := 100, last_check := some 0, last_rate_info := none }

/-- Witness for C4: one second after a recorded check, `wait_if_needed`
skips re-checking. -/
theorem C4_check_rate_limit_amended_witness :
    (wait_if_needed stChecked false 1 (.error ())).checked = false ∧
    (wait_if_needed stChecked false 1 (.error ())).state = stChecked :=
  (C4_check_rate_limit_amended stChecked 1 0
    { remaining := 0, limit := 0, reset := 0, used := 0 }
    (.error ())).2.2 rfl (by decide)

/- ------------------------------------------------------------------- -/
/- Helper lemmas on the modelled cache directory                        -/
/- ------------------------------------------------------------------- -/

/-- Writing a file and reading it back by the same name finds it. -/
theorem fsLookup_fsInsert (files : List (String × CFile)) (n : String)
    (f : CFile) : fsLookup (fsInsert files n f) n = some f := by
  induction files with
  | nil => simp [fsInsert, fsLookup]
  | cons p rest ih =>
    obtain ⟨k, g⟩ := p
    by_cases h : k = n
    · simp [fsInsert, fsLookup, h]
    · simp [fsInsert, fsLookup, h, ih]

/-- Unlinking a name that is not present changes nothing. -/
theorem fsErase_of_not_mem (files : List (String × CFile)) (n : String)
    (h : n ∉ files.map Prod.fst) : fsErase files n = files := by
  induction files with
  | nil => rfl
  | cons p rest ih =>
    obtain ⟨k, g⟩ := p
    simp only [List.map_cons, List.mem_cons, not_or] at h
    have hkn : ¬ k = n := fun e => h.1 e.symm
    unfold fsErase
    rw [List.filter_cons_of_pos (by simp [hkn])]
    exact congrArg (List.cons (k, g)) (ih h.2)

/-- Unlinking a present file from a duplicate-free directory shrinks the
entry count by exactly one. -/
theorem fsErase_length (files : List (String × CFile)) (n : String)
    (f : CFile) (hnd : (files.map Prod.fst).Nodup)
    (hlk : fsLookup files n = some f) :
    (fsErase files n).length + 1 = files.length := by
  induction files with
  | nil => simp [fsLookup] at hlk
  | cons p rest ih =>
    obtain ⟨k, g⟩ := p
    simp only [List.map_cons, List.nodup_cons] at hnd
    by_cases h : k = n
    · subst h
      have hrest : fsErase rest k = rest := fsErase_of_not_mem rest k hnd.1
      unfold fsErase
      rw [List.filter_cons_of_neg (by simp)]
      unfold fsErase at hrest
      rw [hrest, List.length_cons]
    · simp only [fsLookup, if_neg h] at hlk
      simp [fsErase, List.filter_cons, h] at ih ⊢
      exact ih hnd.2 hlk

/- ------------------------------------------------------------------- -/
/- Claims C5, C6 and C7: the cache store                                -/
/- ------------------------------------------------------------------- -/

/-- C5: for every key-derivation function, cache state, string key and
JSON-serializable payload, `set(k, v)` followed by `get(k, maxAgeHours)`
with `maxAgeHours ≥ 0`, before the entry's age exceeds `maxAgeHours`
hours, returns the stored payload. -/
theorem C5_cache_roundtrip (hash : String → String) (cm : CacheManager)
    (k : String) (v : JsonVal) (tset tget max_age_hours : Int)
    (hage : tget - tset ≤ max_age_hours * 3600) (hma : 0 ≤ max_age_hours) :
    (CacheManager.get hash
        ((CacheManager.set hash cm k (.json v) tset).2) k max_age_hours
        tget).1 = some v := by
  have hfresh : ¬ max_age_hours * 3600 < tget - tset := by omega
  simp [CacheManager.set, serializeP, CacheManager.get, fsLookup_fsInsert,
    hfresh]

/-- Stand-in key-derivation function for concrete witnesses (the claims
hold for every such function). -/
def idHash : String → String := fun s => s

/-- Witness for C5: a stored string payload is read back 10 seconds later
under a 1-hour max age. -/
theorem C5_cache_roundtrip_witness :
    ((10 : Int) - 0 ≤ 1 * 3600) ∧
    (CacheManager.get idHash
        ((CacheManager.set idHash ⟨[]⟩ "k" (.json (.str "x")) 0).2) "k" 1
        10).1 = some (.str "x") :=
  ⟨by decide,
   C5_cache_roundtrip idHash ⟨[]⟩ "k" (.str "x") 0 10 1 (by decide)
     (by decide)⟩

/-- C6: `get` returns absent exactly when the entry is missing, expired or
corrupted, and in the expired and corrupted cases it unlinks the entry, so
the `get_cache_info` entry count of a duplicate-free cache directory drops
by one. -/
theorem C6_cache_get_absent (hash : String → String) (cm : CacheManager)
    (key : String) (max_age_hours now : Int)
    (hwf : (cm.files.map Prod.fst).Nodup) :
    ((CacheManager.get hash cm key max_age_hours now).1 = none ↔
      fsLookup cm.files (hash key) = none ∨
      ∃ f, fsLookup cm.files (hash key) = some f ∧
        (max_age_hours * 3600 < now - f.mtime ∨ f.content = .corrupt)) ∧
    (∀ f, fsLookup cm.files (hash key) = some f →
      (max_age_hours * 3600 < now - f.mtime ∨ f.content = .corrupt) →
      (CacheManager.get hash cm key max_age_hours now).1 = none ∧
      CacheManager.get_cache_info
          (CacheManager.get hash cm key max_age_hours now).2 + 1 =
        CacheManager.get_cache_info cm) := by
  constructor
  · cases hlk : fsLookup cm.files (hash key) with
    | none => simp [CacheManager.get, hlk]
    | some f =>
      by_cases hexp : max_age_hours * 3600 < now - f.mtime
      · simp [CacheManager.get, hlk, hexp]
      · cases hc : f.content with
        | valid v => simp [CacheManager.get, hlk, hexp, hc]
        | corrupt => simp [CacheManager.get, hlk, hexp, hc]
  · intro f hlk hbad
    have hlen := fsErase_length cm.files (hash key) f hwf hlk
    by_cases hexp : max_age_hours * 3600 < now - f.mtime
    · simp [CacheManager.get, CacheManager.get_cache_info, hlk, hexp, hlen]
    · have hc : f.content = .corrupt := hbad.resolve_left hexp
      simp [CacheManager.get, CacheManager.get_cache_info, hlk, hexp, hc,
        hlen]

/-- A one-entry cache directory whose entry was written at time 0. -/
def cmExpired : CacheManager :=
  ⟨[("k", { mtime := 0, content := .valid .null })]⟩

/-- Witness for C6: two hours later, a 1-hour-max-age `get` on that entry
returns absent and the entry count drops from 1 to 0. -/
theorem C6_cache_get_absent_witness :
    (CacheManager.get idHash cmExpired "k" 1 7200).1 = none ∧
    CacheManager.get_cache_info
        (CacheManager.get idHash cmExpired "k" 1 7200).2 + 1 =
      CacheManager.get_cache_info cmExpired :=
  (C6_cache_get_absent idHash cmExpired "k" 1 7200 (by decide)).2
    { mtime := 0, content := .valid .null } rfl (Or.inl (by decide))

/-- C7: on every payload whose serialization fails, `set` returns the
failure indication `False` instead of raising (the model of `set` is a
total function: it always returns). -/
theorem C7_set_reports_failure (hash : String → String) (cm : CacheManager)
    (key : String) (p : Payload) (now : Int) (hser : serializeP p = none) :
    (CacheManager.set hash cm key p now).1 = false := by
  simp [CacheManager.set, hser]

/-- Witness for C7 on a concrete non-serializable payload. -/
theorem C7_set_reports_failure_witness :
    serializeP (.unserializable 0) = none ∧
    (CacheManager.set idHash ⟨[]⟩ "k" (.unserializable 0) 0).1 = false :=
  ⟨rfl, C7_set_reports_failure idHash ⟨[]⟩ "k" (.unserializable 0) 0 rfl⟩

/- ------------------------------------------------------------------- -/
/- Claim C8: issue counting                                             -/
/- ------------------------------------------------------------------- -/

/-- Tallying a list of items adds its length to `total` and distributes it
over the `open` / `closed` buckets. -/
theorem issue_tally_foldl (items : List IssueItem) :
    ∀ acc : IssueStats,
      (items.foldl issue_tally acc).total = acc.total + items.length ∧
      (items.foldl issue_tally acc).open_count +
          (items.foldl issue_tally acc).closed
        = acc.open_count + acc.closed + items.length := by
  induction items with
  | nil => intro acc; simp
  | cons i rest ih =>
    intro acc
    simp only [List.foldl_cons, List.length_cons]
    obtain ⟨h1, h2⟩ := ih (issue_tally acc i)
    have ht : (issue_tally acc i).total = acc.total + 1 := rfl
    have hoc : (issue_tally acc i).open_count + (issue_tally acc i).closed
        = acc.open_count + acc.closed + 1 := by
      by_cases h : i.state = "open" <;> simp [issue_tally, h] <;> omega
    omega

/-- One `count_issues_step` adds the repository's non-pull-request item
count to `total` and distributes it over the two buckets. -/
theorem count_issues_step_spec (acc : IssueStats)
    (r : Option (List IssueItem)) :
    (count_issues_step acc r).total = acc.total + issueItemCount r ∧
    (count_issues_step acc r).open_count + (count_issues_step acc r).closed
      = acc.open_count + acc.closed + issueItemCount r := by
  cases r with
  | none => simp [count_issues_step, issueItemCount]
  | some items =>
    simpa [count_issues_step, issueItemCount] using
      issue_tally_foldl (items.filter fun i => !i.has_pull_request) acc

/-- Accumulated form of the `count_issues` fold. -/
theorem count_issues_foldl (rs : List (Option (List IssueItem))) :
    ∀ acc : IssueStats,
      (rs.foldl count_issues_step acc).total
        = acc.total + (rs.map issueItemCount).sum ∧
      (rs.foldl count_issues_step acc).open_count +
          (rs.foldl count_issues_step acc).closed
        = acc.open_count + acc.closed + (rs.map issueItemCount).sum := by
  induction rs with
  | nil => intro acc; simp
  | cons r rest ih =>
    intro acc
    simp only [List.foldl_cons, List.map_cons, List.sum_cons]
    obtain ⟨h1, h2⟩ := ih (count_issues_step acc r)
    obtain ⟨g1, g2⟩ := count_issues_step_spec acc r
    omega

/-- Fixture of 5 listed "issues", 3 of which carry the `pull_request`
marker. -/
def issuesFixture : List IssueItem :=
  [{ has_pull_request := true, state := "open" },
   { has_pull_request := false, state := "open" },
   { has_pull_request := true, state := "closed" },
   { has_pull_request := false, state := "closed" },
   { has_pull_request := true, state := "open" }]

/-- C8: the issue total counts exactly the listed items without a
pull-request marker, each counted item lands in exactly one of the
`open` / `closed` buckets, and on the 5-item fixture with 3 pull requests
the result is `total = 2`. -/
theorem C8_issue_counting (rs : List (Option (List IssueItem))) :
    (count_issues rs).total = (rs.map issueItemCount).sum ∧
    (count_issues rs).open_count + (count_issues rs).closed
      = (count_issues rs).total ∧
    issuesFixture.length = 5 ∧
    (issuesFixture.filter (fun i => i.has_pull_request)).length = 3 ∧
    count_issues [some issuesFixture]
      = { total := 2, open_count := 1, closed := 1 } := by
  obtain ⟨h1, h2⟩ :=
    count_issues_foldl rs { total := 0, open_count := 0, closed := 0 }
  simp only [count_issues]
  simp only [Nat.zero_add] at h1 h2
  exact ⟨h1, by omega, by decide, by decide, by decide⟩

/- ------------------------------------------------------------------- -/
/- Claim C9: language statistics                                        -/
/- ------------------------------------------------------------------- -/

/-- Rounding half-to-even moves a rational by at most one half. -/
theorem roundHalfEven_le (q : ℚ) : |(roundHalfEven q : ℚ) - q| ≤ 1 / 2 := by
  have h0 : (Int.floor q : ℚ) ≤ q := Int.floor_le q
  have h1 : q < Int.floor q + 1 := Int.lt_floor_add_one q
  unfold roundHalfEven
  split
  · rename_i h
    rw [abs_le]
    constructor <;> linarith
  · split
    · rename_i h h2
      rw [abs_le]
      push_cast
      constructor <;> linarith
    · rename_i h h2
      have heq : q - Int.floor q = 1 / 2 := le_antisymm (not_lt.mp h2) (not_lt.mp h)
      split
      · rw [abs_le]
        constructor <;> linarith
      · rw [abs_le]
        push_cast
        constructor <;> linarith

/-- Python's `round(x, 2)` moves a rational by at most `1 / 200`. -/
theorem round2_close (q : ℚ) : |round2 q - q| ≤ 1 / 200 := by
  have h := roundHalfEven_le (q * 100)
  unfold round2
  have e : (roundHalfEven (q * 100) : ℚ) / 100 - q
      = ((roundHalfEven (q * 100) : ℚ) - q * 100) / 100 := by ring
  rw [e, abs_div, abs_of_pos (show (0 : ℚ) < 100 by norm_num)]
  linarith

/-- Rounding each summand to two decimals moves a list sum by at most
`length / 200`. -/
theorem sum_round2_close (l : List ℚ) :
    |(l.map round2).sum - l.sum| ≤ (l.length : ℚ) / 200 := by
  induction l with
  | nil => simp
  | cons q rest ih =>
    simp only [List.map_cons, List.sum_cons, List.length_cons]
    have h := round2_close q
    have tri :
        |round2 q + (rest.map round2).sum - (q + rest.sum)|
          ≤ |round2 q - q| + |(rest.map round2).sum - rest.sum| := by
      have e : round2 q + (rest.map round2).sum - (q + rest.sum)
          = (round2 q - q) + ((rest.map round2).sum - rest.sum) := by ring
      rw [e]
      exact abs_add _ _
    have hc : ((rest.length + 1 : ℕ) : ℚ) = (rest.length : ℚ) + 1 := by
      push_cast
      ring
    rw [hc]
    calc |round2 q + (rest.map round2).sum - (q + rest.sum)|
        ≤ |round2 q - q| + |(rest.map round2).sum - rest.sum| := tri
      _ ≤ 1 / 200 + (rest.length : ℚ) / 200 := by linarith
      _ = ((rest.length : ℚ) + 1) / 200 := by ring

/-- The unrounded percentages of an accumulated byte dict sum to
`total * 100 / t`. -/
theorem pcts_sum (acc : List (String × Nat)) (t : ℚ) :
    (acc.map (fun p => (p.2 : ℚ) / t * 100)).sum
      = (langTotal acc : ℚ) * 100 / t := by
  induction acc with
  | nil => simp [langTotal]
  | cons p rest ih =>
    simp only [List.map_cons, List.sum_cons, ih, langTotal]
    push_cast
    ring

/-- The fixture of C9: two repositories reporting `{Go: 100}` and
`{Go: 100, Rust: 200}`. -/
def langFixture : List (Option (List (String × Nat))) :=
  [some [("Go", 100)], some [("Go", 100), ("Rust", 200)]]

/-- C9: language statistics sum byte counts across repositories and
convert to percentages of the grand total: the output percentages sum to
100 up to rounding (within `length / 200`), the output is ordered
descending by percentage, a zero grand total yields the empty mapping,
and on the fixture `{Go: 100}` + `{Go: 100, Rust: 200}` the result is
`Go: 50`, `Rust: 50`. -/
theorem C9_language_stats (rs : List (Option (List (String × Nat)))) :
    (langTotal (accumulate_languages rs) = 0 → get_language_stats rs = []) ∧
    (langTotal (accumulate_languages rs) ≠ 0 →
      |((get_language_stats rs).map Prod.snd).sum - 100|
        ≤ ((get_language_stats rs).length : ℚ) / 200) ∧
    List.Sorted descBySnd (get_language_stats rs) ∧
    get_language_stats langFixture = [("Go", 50), ("Rust", 50)] := by
  refine ⟨?_, ?_, ?_, ?_⟩
  · intro h
    simp [get_language_stats, h]
  · intro h
    have hcast : ((langTotal (accumulate_languages rs) : ℚ)) ≠ 0 := by
      exact_mod_cast h
    simp only [get_language_stats, if_neg h]
    have hperm :
        List.Perm
          (List.insertionSort descBySnd
            ((accumulate_languages rs).map
              (fun p => (p.1,
                round2 ((p.2 : ℚ) / (langTotal (accumulate_languages rs) : ℚ)
                  * 100)))))
          ((accumulate_languages rs).map
            (fun p => (p.1,
              round2 ((p.2 : ℚ) / (langTotal (accumulate_languages rs) : ℚ)
                * 100)))) :=
      List.perm_insertionSort descBySnd _
    have hsnd := (hperm.map Prod.snd).sum_eq
    have hlen := hperm.length_eq
    rw [List.map_map] at hsnd
    have hcomp :
        ((accumulate_languages rs).map
          (Prod.snd ∘ fun p => (p.1,
            round2 ((p.2 : ℚ) / (langTotal (accumulate_languages rs) : ℚ)
              * 100)))).sum
          = (((accumulate_languages rs).map
              (fun p => (p.2 : ℚ) / (langTotal (accumulate_languages rs) : ℚ)
                * 100)).map round2).sum := by
      rw [List.map_map]
      rfl
    have hclose := sum_round2_close
      ((accumulate_languages rs).map
        (fun p => (p.2 : ℚ) / (langTotal (accumulate_languages rs) : ℚ)
          * 100))
    have hsum : ((accumulate_languages rs).map
        (fun p => (p.2 : ℚ) / (langTotal (accumulate_languages rs) : ℚ)
          * 100)).sum = 100 := by
      rw [pcts_sum]
      field_simp
    rw [hsum] at hclose
    rw [hsnd, hcomp, hlen, List.length_map]
    simpa using hclose
  · by_cases h : langTotal (accumulate_languages rs) = 0
    · simp [get_language_stats, h]
    · simp only [get_language_stats, if_neg h]
      exact List.sorted_insertionSort descBySnd _
  · have hne : ¬ ("Go" : String) = "Rust" := by decide
    have hacc : accumulate_languages langFixture
        = [("Go", 200), ("Rust", 200)] := by
      simp [langFixture, accumulate_languages, dictAdd, hne]
    have htot : langTotal ([("Go", 200), ("Rust", 200)] : List (String × Nat))
        = 400 := by
      norm_num [langTotal]
    have hround : round2 (50 : ℚ) = 50 := by
      have h2 : ⌊(50 : ℚ) * 100⌋ = 5000 := by norm_num
      simp only [round2, roundHalfEven, h2]
      norm_num
    show get_language_stats langFixture = [("Go", 50), ("Rust", 50)]
    simp only [get_language_stats, hacc, htot]
    norm_num [hround, List.insertionSort, List.orderedInsert, descBySnd]

/-- Witness for C9 on the two-repository fixture. -/
theorem C9_language_stats_witness :
    langTotal (accumulate_languages langFixture) ≠ 0 ∧
    |((get_language_stats langFixture).map Prod.snd).sum - 100|
      ≤ ((get_language_stats langFixture).length : ℚ) / 200 :=
  ⟨by decide, (C9_language_stats langFixture).2.1 (by decide)⟩

/- ------------------------------------------------------------------- -/
/- Claim C10: repository listing and the empty cached list              -/
/- ------------------------------------------------------------------- -/

/-- C10: with caching enabled, a valid cached *empty* list is not used —
`get_all_repos` performs the remote paginated fetch anyway — while a
non-empty cached list is returned as-is without fetching. -/
theorem C10_repos_empty_cache_refetch {α : Type} (pages : List (List α))
    (c : List α) :
    get_all_repos true (some ([] : List α)) pages = fetch_path true pages ∧
    (get_all_repos true (some ([] : List α)) pages).fetched_remote = true ∧
    (¬ c = [] → get_all_repos true (some c) pages =
      { repos := c, fetched_remote := false, wrote_cache := false }) := by
  refine ⟨rfl, rfl, ?_⟩
  intro hc
  cases c with
  | nil => exact absurd rfl hc
  | cons a as => rfl

/-- Witness for C10 on concrete pages and a concrete cached list. -/
theorem C10_repos_empty_cache_refetch_witness :
    get_all_repos true (some ([] : List Nat)) [[1, 2], []]
      = fetch_path true [[1, 2], []] ∧
    get_all_repos true (some [9]) [[1, 2], []]
      = { repos := [9], fetched_remote := false, wrote_cache := false } :=
  ⟨(C10_repos_empty_cache_refetch [[1, 2], []] [9]).1,
   (C10_repos_empty_cache_refetch [[1, 2], []] [9]).2.2 (by decide)⟩
